import Mathlib

/-
  Verification development for `ftxcontrol.py`, a CAT-protocol controller for
  the Yaesu FTX-1 transceiver.  Strings are modelled as `List Char`; the serial
  transport is modelled by the list of bytes it will deliver (the end of the
  list standing for a read timeout, i.e. `serial.read(1)` returning `b''`).
  Python's fallible conversions (`int(...)`, indexing `s[i]`) are modelled with
  `Option`: `none` is a raised exception.
-/

/-- The read loop of `FTX1Controller._send_command` (lines 70-77): read one
byte at a time, stop on the terminator `';'` or on a timed-out/empty read
(modelled by the end of the incoming byte list), and return the accumulated
bytes. -/
def readResponse : List Char → List Char
  | [] => []
  | c :: rest => if c = ';' then [] else c :: readResponse rest

/-- `cmd = command + ';'` (line 66): the frame written to the transport. -/
def frame (command : List Char) : List Char := command ++ [';']

/-- `FTX1Controller._send_command`: returns the frame written to the transport
and the reply body read back, given the bytes `incoming` the transport will
deliver. -/
def sendCommand (command : List Char) (incoming : List Char) :
    List Char × List Char :=
  (frame command, readResponse incoming)

/-- Python's `f"{n:0wd}"` for a non-negative `n`: `w` decimal digits,
zero-padded.  Faithful to Python whenever `n < 10 ^ w`, which holds for every
argument this file ever formats (Python would print extra digits beyond the
declared width for larger values; no in-range argument produces that). -/
def padNat : Nat → Nat → List Char
  | 0, _ => []
  | w + 1, n => padNat w (n / 10) ++ [Nat.digitChar (n % 10)]

/-- Python's `f"{i:0wd}"` for an `int`:  a leading `'-'` counts against the
width (`f"{-5:09d}" == "-00000005"`). -/
def padInt (w : Nat) (i : Int) : List Char :=
  if i < 0 then '-' :: padNat (w - 1) i.natAbs else padNat w i.toNat

/-- Python's `int(s)` restricted to the shapes that occur on this wire:
`none` (an exception) on the empty string or any non-digit character. -/
def parseNat (cs : List Char) : Option Nat :=
  if cs = [] then none
  else if cs.all Char.isDigit then
    some (cs.foldl (fun a c => a * 10 + (c.toNat - 48)) 0)
  else none

/-- Python's `int(s)` including an optional single leading sign. -/
def pyInt (cs : List Char) : Option Int :=
  match cs with
  | [] => none
  | c :: rest =>
    if c = '-' then (parseNat rest).map (fun n => -(n : Int))
    else if c = '+' then (parseNat rest).map (fun n => (n : Int))
    else (parseNat (c :: rest)).map (fun n => (n : Int))

/-- `OperatingMode` (lines 6-24): the closed 17-member mode set. -/
inductive OperatingMode where
  | LSB | USB | CW_U | FM | AM | RTTY_L | CW_L | DATA_L | RTTY_U
  | DATA_FM | FM_N | DATA_U | AM_N | PSK | DATA_FM_N | C4FM_DN | C4FM_VW
  deriving DecidableEq

/-- The wire character of each operating mode (`OperatingMode.value`). -/
def OperatingMode.value : OperatingMode → Char
  | .LSB => '1' | .USB => '2' | .CW_U => '3' | .FM => '4' | .AM => '5'
  | .RTTY_L => '6' | .CW_L => '7' | .DATA_L => '8' | .RTTY_U => '9'
  | .DATA_FM => 'A' | .FM_N => 'B' | .DATA_U => 'C' | .AM_N => 'D'
  | .PSK => 'E' | .DATA_FM_N => 'F' | .C4FM_DN => 'H' | .C4FM_VW => 'I'

/-- `AGCMode` (lines 26-32). -/
inductive AGCMode where
  | OFF | FAST | MID | SLOW | AUTO
  deriving DecidableEq

/-- The wire character of each AGC mode (`AGCMode.value`). -/
def AGCMode.value : AGCMode → Char
  | .OFF => '0' | .FAST => '1' | .MID => '2' | .SLOW => '3' | .AUTO => '4'

/-- The side selector `Literal[0, 1]` rendered by `f"...{side}..."`. -/
def sideChar (s : Fin 2) : Char := Nat.digitChar s.val

/-- The `'1' if b else '0'` idiom used for boolean flags. -/
def boolChar (b : Bool) : Char := if b then '1' else '0'

/-- The `'+' if offset_hz >= 0 else '-'` sign computation used by
`set_clarifier` (line 441) and `set_if_shift` (line 572). -/
def signChar (i : Int) : Char := if 0 ≤ i then '+' else '-'

-- ============================================================
-- basic lemmas about the formatting helpers
-- ============================================================

theorem padNat_length (w n : Nat) : (padNat w n).length = w := by
  induction w generalizing n with
  | zero => rfl
  | succ w ih => simp [padNat, ih]

theorem digitChar_isDigit {d : Nat} (hd : d < 10) : (Nat.digitChar d).isDigit := by
  interval_cases d <;> decide

theorem digitChar_toNat {d : Nat} (hd : d < 10) : (Nat.digitChar d).toNat = 48 + d := by
  interval_cases d <;> decide

theorem digitChar_ne_semi (d : Nat) : Nat.digitChar d ≠ ';' := by
  rcases Nat.lt_or_ge d 16 with h | h
  · interval_cases d <;> decide
  · have hne : ∀ k : Nat, k < 16 → d ≠ k := fun k hk he => by omega
    intro hc
    unfold Nat.digitChar at hc
    rw [if_neg (hne 0 (by norm_num)), if_neg (hne 1 (by norm_num)),
        if_neg (hne 2 (by norm_num)), if_neg (hne 3 (by norm_num)),
        if_neg (hne 4 (by norm_num)), if_neg (hne 5 (by norm_num)),
        if_neg (hne 6 (by norm_num)), if_neg (hne 7 (by norm_num)),
        if_neg (hne 8 (by norm_num)), if_neg (hne 9 (by norm_num)),
        if_neg (hne 10 (by norm_num)), if_neg (hne 11 (by norm_num)),
        if_neg (hne 12 (by norm_num)), if_neg (hne 13 (by norm_num)),
        if_neg (hne 14 (by norm_num)), if_neg (hne 15 (by norm_num))] at hc
    exact absurd hc (by decide)

theorem mem_padNat_isDigit {w n : Nat} {c : Char} (h : c ∈ padNat w n) :
    c.isDigit := by
  induction w generalizing n with
  | zero => simp [padNat] at h
  | succ w ih =>
    simp only [padNat, List.mem_append, List.mem_singleton] at h
    rcases h with h | h
    · exact ih h
    · exact h ▸ digitChar_isDigit (Nat.mod_lt _ (by norm_num))

theorem semi_not_mem_padNat (w n : Nat) : ';' ∉ padNat w n := by
  intro h
  have := mem_padNat_isDigit h
  simp at this

theorem semi_not_mem_padInt (w : Nat) (i : Int) : ';' ∉ padInt w i := by
  unfold padInt
  split
  · intro h
    rcases List.mem_cons.mp h with h | h
    · simp at h
    · exact semi_not_mem_padNat _ _ h
  · exact semi_not_mem_padNat _ _

theorem foldl_padNat (w : Nat) :
    ∀ n acc, n < 10 ^ w →
      (padNat w n).foldl (fun a c => a * 10 + (c.toNat - 48)) acc =
        acc * 10 ^ w + n := by
  induction w with
  | zero =>
    intro n acc hn
    interval_cases n
    simp [padNat]
  | succ w ih =>
    intro n acc hn
    have hdiv : n / 10 < 10 ^ w := by
      rw [Nat.div_lt_iff_lt_mul (by norm_num)]
      calc n < 10 ^ (w + 1) := hn
        _ = 10 ^ w * 10 := by ring
    have hmod : n % 10 < 10 := Nat.mod_lt _ (by norm_num)
    rw [padNat, List.foldl_append, ih (n / 10) acc hdiv]
    simp only [List.foldl_cons, List.foldl_nil]
    rw [digitChar_toNat hmod]
    have h10 : 10 * (n / 10) + n % 10 = n := Nat.div_add_mod n 10
    have : (48 : Nat) + n % 10 - 48 = n % 10 := by omega
    rw [this]
    ring_nf
    omega

theorem parseNat_padNat {w n : Nat} (hw : 0 < w) (hn : n < 10 ^ w) :
    parseNat (padNat w n) = some n := by
  have hne : padNat w n ≠ [] := by
    intro h
    have := padNat_length w n
    rw [h] at this
    simp at this
    omega
  have hall : (padNat w n).all Char.isDigit = true := by
    rw [List.all_eq_true]
    intro c hc
    exact mem_padNat_isDigit hc
  rw [parseNat, if_neg hne, if_pos hall, foldl_padNat w n 0 hn]
  norm_num

theorem pyInt_padNat {w n : Nat} (hw : 0 < w) (hn : n < 10 ^ w) :
    pyInt (padNat w n) = some (n : Int) := by
  rcases he : padNat w n with _ | ⟨c, cs⟩
  · have := padNat_length w n
    rw [he] at this
    simp at this
    omega
  · have hc : c.isDigit := mem_padNat_isDigit (he ▸ List.mem_cons_self c cs)
    have hminus : c ≠ '-' := by
      intro h; rw [h] at hc; simp at hc
    have hplus : c ≠ '+' := by
      intro h; rw [h] at hc; simp at hc
    rw [pyInt, if_neg hminus, if_neg hplus, ← he, parseNat_padNat hw hn]
    rfl

-- ============================================================
-- Command Catalog: encoders (command bodies sent to `_send_command`)
-- ============================================================

/-- `set_frequency_main` (line 89): sends `f"FA{freq_hz:09d}"`. -/
def set_frequency_main (freq_hz : Int) : List Char :=
  "FA".toList ++ padInt 9 freq_hz

/-- `set_frequency_sub` (line 115): sends `f"FB{freq_hz:09d}"`. -/
def set_frequency_sub (freq_hz : Int) : List Char :=
  "FB".toList ++ padInt 9 freq_hz

/-- `set_mode` (line 142): sends `f"MD{side}{mode.value}"`. -/
def set_mode (mode : OperatingMode) (side : Fin 2) : List Char :=
  "MD".toList ++ [sideChar side, mode.value]

/-- `set_ptt` (line 177): sends `"TX1"` or `"TX0"`. -/
def set_ptt (state : Bool) : List Char :=
  if state then "TX1".toList else "TX0".toList

/-- `set_rf_power` (line 208): sends `f"PC{unit}{power_watts:03d}"` (the
`:03d` format requires an integral value at runtime; modelled with `Nat`). -/
def set_rf_power (power_watts : Nat) (unit : Nat) : List Char :=
  "PC".toList ++ [Nat.digitChar unit] ++ padNat 3 power_watts

/-- `set_agc` (line 242): sends `f"GT{side}{mode.value}"`. -/
def set_agc (mode : AGCMode) (side : Fin 2) : List Char :=
  "GT".toList ++ [sideChar side, mode.value]

/-- `set_af_gain` (line 272): sends `f"AG{side}{level:03d}"`. -/
def set_af_gain (level : Nat) (side : Fin 2) : List Char :=
  "AG".toList ++ [sideChar side] ++ padNat 3 level

/-- `set_squelch` (line 298): sends `f"SQ{side}{level:03d}"`. -/
def set_squelch (level : Nat) (side : Fin 2) : List Char :=
  "SQ".toList ++ [sideChar side] ++ padNat 3 level

/-- `toggle_vfo_memory` (line 359): sends `f"VM{side}"`. -/
def toggle_vfo_memory (side : Fin 2) : List Char :=
  "VM".toList ++ [sideChar side]

/-- `set_memory_channel` (line 369): raises `ValueError` (modelled `none`)
unless `1 <= channel <= 99`, and only then sends `f"MC{side}{channel:05d}"`;
`none` means no transaction is performed and no bytes are written. -/
def set_memory_channel (channel : Int) (side : Fin 2) : Option (List Char) :=
  if 1 ≤ channel ∧ channel ≤ 99 then
    some ("MC".toList ++ [sideChar side] ++ padInt 5 channel)
  else none

/-- `memory_to_vfo` (line 384): sends `"MA"`. -/
def memory_to_vfo : List Char := "MA".toList

/-- `memory_to_vfo_sub` (line 389): sends `"MB"`. -/
def memory_to_vfo_sub : List Char := "MB".toList

/-- `set_split` (line 398): sends `"ST1"` or `"ST0"`. -/
def set_split (state : Bool) : List Char :=
  if state then "ST1".toList else "ST0".toList

/-- The first body `set_clarifier` sends (line 445):
`f"CF{side}00{rx}{tx}000"` — sub-selector `P3=0`, the CLAR on/off setting. -/
def clarFlagsBody (rx_on tx_on : Bool) (side : Fin 2) : List Char :=
  "CF".toList ++ [sideChar side] ++ "00".toList ++
    [boolChar rx_on, boolChar tx_on] ++ "000".toList

/-- The second body `set_clarifier` sends (line 447):
`f"CF{side}01{sign}{freq:04d}"` — sub-selector `P3=1`, the CLAR frequency,
with `sign = '+' if offset_hz >= 0 else '-'` and `freq = abs(offset_hz)`. -/
def clarFreqBody (offset_hz : Int) (side : Fin 2) : List Char :=
  "CF".toList ++ [sideChar side] ++ "01".toList ++
    [signChar offset_hz] ++ padNat 4 offset_hz.natAbs

/-- `set_clarifier` (line 424): the ordered list of the two command bodies it
passes to `_send_command`, in program order. -/
def set_clarifier (rx_on tx_on : Bool) (offset_hz : Int) (side : Fin 2) :
    List (List Char) :=
  [clarFlagsBody rx_on tx_on side, clarFreqBody offset_hz side]

/-- `band_up` (line 454): sends `f"BU{side}"`. -/
def band_up (side : Fin 2) : List Char := "BU".toList ++ [sideChar side]

/-- `band_down` (line 464): sends `f"BD{side}"`. -/
def band_down (side : Fin 2) : List Char := "BD".toList ++ [sideChar side]

/-- `select_band` (line 474): sends `f"BS{side}{band:02d}"`. -/
def select_band (band : Nat) (side : Fin 2) : List Char :=
  "BS".toList ++ [sideChar side] ++ padNat 2 band

/-- `set_scan` (line 491): sends `f"SC{side}{mode}"` with `mode` in
`Literal[0, 1, 2]`. -/
def set_scan (mode : Fin 3) (side : Fin 2) : List Char :=
  "SC".toList ++ [sideChar side, Nat.digitChar mode.val]

/-- `set_cw_keyer` (line 506): sends `"KR1"` or `"KR0"`. -/
def set_cw_keyer (state : Bool) : List Char :=
  if state then "KR1".toList else "KR0".toList

/-- `set_cw_speed` (line 517): sends `f"KS{wpm:03d}"`. -/
def set_cw_speed (wpm : Nat) : List Char :=
  "KS".toList ++ padNat 3 wpm

/-- `set_cw_pitch` (line 538): sends `f"KP{value:02d}"` with
`value = (pitch_hz - 300) // 10` (Python floor division). -/
def set_cw_pitch (pitch_hz : Int) : List Char :=
  "KP".toList ++ padInt 2 ((pitch_hz - 300).fdiv 10)

/-- `set_breakin` (line 549): sends `"BI1"` or `"BI0"`. -/
def set_breakin (state : Bool) : List Char :=
  if state then "BI1".toList else "BI0".toList

/-- `set_if_shift` (line 564): sends `f"IS{side}0{sign}{value:04d}"` with
`sign = '+' if offset_hz >= 0 else '-'` and `value = abs(offset_hz)`. -/
def set_if_shift (offset_hz : Int) (side : Fin 2) : List Char :=
  "IS".toList ++ [sideChar side] ++ ['0'] ++
    [signChar offset_hz] ++ padNat 4 offset_hz.natAbs

/-- `set_width` (line 577): sends `f"SH{side}0{width_code:02d}"`. -/
def set_width (width_code : Nat) (side : Fin 2) : List Char :=
  "SH".toList ++ [sideChar side] ++ ['0'] ++ padNat 2 width_code

/-- `set_narrow` (line 588): sends `f"NA{side}1"` or `f"NA{side}0"`. -/
def set_narrow (state : Bool) (side : Fin 2) : List Char :=
  "NA".toList ++ [sideChar side] ++ [boolChar state]

/-- `set_noise_blanker` (line 604): sends `f"NL{side}{level:03d}"`. -/
def set_noise_blanker (level : Nat) (side : Fin 2) : List Char :=
  "NL".toList ++ [sideChar side] ++ padNat 3 level

/-- `set_dnr` (line 615): sends `f"RL{side}{level:02d}"`. -/
def set_dnr (level : Nat) (side : Fin 2) : List Char :=
  "RL".toList ++ [sideChar side] ++ padNat 2 level

/-- `set_dnf` (line 626): sends `f"BC{side}1"` or `f"BC{side}0"`. -/
def set_dnf (state : Bool) (side : Fin 2) : List Char :=
  "BC".toList ++ [sideChar side] ++ [boolChar state]

/-- `enable_auto_information` (line 694): sends `"AI1"` or `"AI0"`. -/
def enable_auto_information (state : Bool) : List Char :=
  if state then "AI1".toList else "AI0".toList

/-- `lock_controls` (line 707): sends `"LK1"` or `"LK0"`. -/
def lock_controls (state : Bool) : List Char :=
  if state then "LK1".toList else "LK0".toList

/-- `swap_vfo` (line 718): sends `"SV"`. -/
def swap_vfo : List Char := "SV".toList

-- ============================================================
-- Command Catalog: query bodies and reply decoders
-- ============================================================

/-- Query body of `get_frequency_main` (line 111): `"FA"`. -/
def get_frequency_main_query : List Char := "FA".toList

/-- Query body of `get_frequency_sub` (line 134): `"FB"`. -/
def get_frequency_sub_query : List Char := "FB".toList

/-- Query body of `get_mode` (line 169): `f"MD{side}"`. -/
def get_mode_query (side : Fin 2) : List Char := "MD".toList ++ [sideChar side]

/-- Query body of `get_ptt_status` (line 200): `"TX"`. -/
def get_ptt_status_query : List Char := "TX".toList

/-- Query body of `get_rf_power` (line 232): `"PC"`. -/
def get_rf_power_query : List Char := "PC".toList

/-- Query body of `get_agc` (line 264): `f"GT{side}"`. -/
def get_agc_query (side : Fin 2) : List Char := "GT".toList ++ [sideChar side]

/-- Query body of `get_af_gain` (line 294): `f"AG{side}"`. -/
def get_af_gain_query (side : Fin 2) : List Char := "AG".toList ++ [sideChar side]

/-- Query body of `get_squelch` (line 317): `f"SQ{side}"`. -/
def get_squelch_query (side : Fin 2) : List Char := "SQ".toList ++ [sideChar side]

/-- Query body of `get_s_meter` (line 335): `f"SM{side}"`. -/
def get_s_meter_query (side : Fin 2) : List Char := "SM".toList ++ [sideChar side]

/-- Query body of `get_meter_reading` (line 349): `f"RM{meter_type}"` for a
single-digit meter selector (documented range 1-8). -/
def get_meter_reading_query (meter_type : Nat) : List Char :=
  "RM".toList ++ [Nat.digitChar meter_type]

/-- Query body of `get_split` (line 416): `"ST"`. -/
def get_split_query : List Char := "ST".toList

/-- Query body of `get_cw_speed` (line 534): `"KS"`. -/
def get_cw_speed_query : List Char := "KS".toList

/-- Query body of `get_radio_info` (line 649): `"IF"`. -/
def get_radio_info_query : List Char := "IF".toList

/-- Query body of `get_id` (line 672): `"ID"`. -/
def get_id_query : List Char := "ID".toList

/-- Query body of `get_firmware_version` (line 686): `f"VE{cpu}"` for
`cpu` in `Literal[0, 1, 2, 3, 4, 5]`. -/
def get_firmware_version_query (cpu : Fin 6) : List Char :=
  "VE".toList ++ [Nat.digitChar cpu.val]

/-- Decoder of `get_frequency_main` (line 112): `int(response[2:])`. -/
def get_frequency_main_decode (response : List Char) : Option Int :=
  pyInt (response.drop 2)

/-- Decoder of `get_frequency_sub` (line 135): `int(response[2:])`. -/
def get_frequency_sub_decode (response : List Char) : Option Int :=
  pyInt (response.drop 2)

/-- Decoder of `get_mode` (line 170): `response[3:]`.  A Python slice never
raises, so this is total. -/
def get_mode_decode (response : List Char) : List Char := response.drop 3

/-- Decoder of `get_ptt_status` (line 201): `response[2] == '2'`; indexing a
string shorter than 3 raises `IndexError` (modelled `none`). -/
def get_ptt_status_decode (response : List Char) : Option Bool :=
  (response.get? 2).map (fun c => c == '2')

/-- Decoder of `get_rf_power` (lines 233-235): `int(response[2])` and
`float(response[3:6])` (on this wire the power field is a 3-digit decimal, so
the `float` conversion is modelled as the same digit parse). -/
def get_rf_power_decode (response : List Char) : Option (Nat × Nat) := do
  let u ← response.get? 2
  let unit ← parseNat [u]
  let power ← parseNat ((response.drop 3).take 3)
  pure (unit, power)

/-- Decoder of `get_agc` (line 265): `response[3:]` (total slice). -/
def get_agc_decode (response : List Char) : List Char := response.drop 3

/-- Decoder of `get_af_gain` (line 295): `int(response[3:6])`. -/
def get_af_gain_decode (response : List Char) : Option Nat :=
  parseNat ((response.drop 3).take 3)

/-- Decoder of `get_squelch` (line 318): `int(response[3:6])`. -/
def get_squelch_decode (response : List Char) : Option Nat :=
  parseNat ((response.drop 3).take 3)

/-- Decoder of `get_s_meter` (line 336): `int(response[3:6])`. -/
def get_s_meter_decode (response : List Char) : Option Nat :=
  parseNat ((response.drop 3).take 3)

/-- Decoder of `get_meter_reading` (lines 350-352): `int(response[3:6])` and
`int(response[6:9])`. -/
def get_meter_reading_decode (response : List Char) : Option (Nat × Nat) := do
  let primary ← parseNat ((response.drop 3).take 3)
  let secondary ← parseNat ((response.drop 6).take 3)
  pure (primary, secondary)

/-- Decoder of `get_split` (line 417): `response[2] == '1'`. -/
def get_split_decode (response : List Char) : Option Bool :=
  (response.get? 2).map (fun c => c == '1')

/-- Decoder of `get_cw_speed` (line 535): `int(response[2:5])`. -/
def get_cw_speed_decode (response : List Char) : Option Nat :=
  parseNat ((response.drop 2).take 3)

/-- The composite value decoded by `get_radio_info` (lines 651-662). -/
structure RadioInfo where
  memory_channel : List Char
  frequency : Int
  clar_direction : Char
  clar_offset : Int
  rx_clar : Bool
  tx_clar : Bool
  mode : Char
  vfo_memory : Char
  tone_mode : Char
  repeater_shift : Char
  deriving DecidableEq

/-- Decoder of `get_radio_info` (lines 651-662): ten fixed-offset fields from
one reply body; any out-of-range index or failing `int(...)` raises
(modelled `none`). -/
def get_radio_info_decode (response : List Char) : Option RadioInfo := do
  let freq ← pyInt ((response.drop 7).take 9)
  let dir ← response.get? 16
  let off ← pyInt ((response.drop 17).take 4)
  let rx ← response.get? 21
  let tx ← response.get? 22
  let md ← response.get? 23
  let vm ← response.get? 24
  let tone ← response.get? 25
  let shift ← response.get? 28
  pure { memory_channel := (response.drop 2).take 5
         frequency := freq
         clar_direction := dir
         clar_offset := off
         rx_clar := rx == '1'
         tx_clar := tx == '1'
         mode := md
         vfo_memory := vm
         tone_mode := tone
         repeater_shift := shift }

/-- Decoder of `get_id` (line 673): `response[2:]` (total slice). -/
def get_id_decode (response : List Char) : List Char := response.drop 2

/-- Decoder of `get_firmware_version` (line 687): `response[3:]` (total
slice). -/
def get_firmware_version_decode (response : List Char) : List Char :=
  response.drop 3

/-- The signed clarifier value denoted by the `clar_direction` /
`clar_offset` pair of a `RadioInfo`: the direction character carries the
sign, the offset the magnitude. -/
def clarSigned (info : RadioInfo) : Int :=
  if info.clar_direction = '-' then -info.clar_offset else info.clar_offset

-- ============================================================
-- the operation catalog as one enumeration (for the frame invariant)
-- ============================================================

/-- One constructor per public catalog operation of `ftxcontrol.py`, carrying
its typed arguments (`Literal[...]` parameters become `Fin` types). -/
inductive CatalogOp where
  | setFrequencyMain (freq_hz : Int)
  | getFrequencyMain
  | setFrequencySub (freq_hz : Int)
  | getFrequencySub
  | setMode (mode : OperatingMode) (side : Fin 2)
  | getMode (side : Fin 2)
  | setPtt (state : Bool)
  | getPttStatus
  | setRfPower (power_watts : Nat) (unit : Nat)
  | getRfPower
  | setAgc (mode : AGCMode) (side : Fin 2)
  | getAgc (side : Fin 2)
  | setAfGain (level : Nat) (side : Fin 2)
  | getAfGain (side : Fin 2)
  | setSquelch (level : Nat) (side : Fin 2)
  | getSquelch (side : Fin 2)
  | getSMeter (side : Fin 2)
  | getMeterReading (meter_type : Nat)
  | toggleVfoMemory (side : Fin 2)
  | setMemoryChannel (channel : Int) (side : Fin 2)
  | memoryToVfo
  | memoryToVfoSub
  | setSplit (state : Bool)
  | getSplit
  | setClarifier (rx_on tx_on : Bool) (offset_hz : Int) (side : Fin 2)
  | bandUp (side : Fin 2)
  | bandDown (side : Fin 2)
  | selectBand (band : Nat) (side : Fin 2)
  | setScan (mode : Fin 3) (side : Fin 2)
  | setCwKeyer (state : Bool)
  | setCwSpeed (wpm : Nat)
  | getCwSpeed
  | setCwPitch (pitch_hz : Int)
  | setBreakin (state : Bool)
  | setIfShift (offset_hz : Int) (side : Fin 2)
  | setWidth (width_code : Nat) (side : Fin 2)
  | setNarrow (state : Bool) (side : Fin 2)
  | setNoiseBlanker (level : Nat) (side : Fin 2)
  | setDnr (level : Nat) (side : Fin 2)
  | setDnf (state : Bool) (side : Fin 2)
  | getRadioInfo
  | getId
  | getFirmwareVersion (cpu : Fin 6)
  | enableAutoInformation (state : Bool)
  | lockControls (state : Bool)
  | swapVfo

/-- The documented precondition of each operation (docstring ranges of
`ftxcontrol.py`; `True` where the docstring constrains nothing beyond the
parameter's type). -/
@[reducible] def CatalogOp.pre : CatalogOp → Prop
  | .setFrequencyMain f => 30000 ≤ f ∧ f ≤ 470000000
  | .setFrequencySub f => 30000 ≤ f ∧ f ≤ 470000000
  | .setRfPower p u => (u = 1 ∨ u = 2) ∧ p ≤ 100
  | .setAfGain l _ => l ≤ 255
  | .setSquelch l _ => l ≤ 255
  | .getMeterReading mt => 1 ≤ mt ∧ mt ≤ 8
  | .setMemoryChannel ch _ => 1 ≤ ch ∧ ch ≤ 99
  | .setClarifier _ _ off _ => -9995 ≤ off ∧ off ≤ 9995
  | .selectBand b _ => b ≤ 14
  | .setCwSpeed wpm => 4 ≤ wpm ∧ wpm ≤ 60
  | .setCwPitch p => 300 ≤ p ∧ p ≤ 1050
  | .setIfShift off _ => -1200 ≤ off ∧ off ≤ 1200
  | .setWidth w _ => w ≤ 23
  | .setNoiseBlanker l _ => l ≤ 10
  | .setDnr l _ => l ≤ 10
  | _ => True

/-- The command bodies each operation hands to `_send_command`, in program
order (`set_clarifier` sends two; everything else sends one). -/
def CatalogOp.bodiesOf : CatalogOp → List (List Char)
  | .setFrequencyMain f => [set_frequency_main f]
  | .getFrequencyMain => [get_frequency_main_query]
  | .setFrequencySub f => [set_frequency_sub f]
  | .getFrequencySub => [get_frequency_sub_query]
  | .setMode m s => [set_mode m s]
  | .getMode s => [get_mode_query s]
  | .setPtt b => [set_ptt b]
  | .getPttStatus => [get_ptt_status_query]
  | .setRfPower p u => [set_rf_power p u]
  | .getRfPower => [get_rf_power_query]
  | .setAgc m s => [set_agc m s]
  | .getAgc s => [get_agc_query s]
  | .setAfGain l s => [set_af_gain l s]
  | .getAfGain s => [get_af_gain_query s]
  | .setSquelch l s => [set_squelch l s]
  | .getSquelch s => [get_squelch_query s]
  | .getSMeter s => [get_s_meter_query s]
  | .getMeterReading mt => [get_meter_reading_query mt]
  | .toggleVfoMemory s => [toggle_vfo_memory s]
  | .setMemoryChannel ch s => ["MC".toList ++ [sideChar s] ++ padInt 5 ch]
  | .memoryToVfo => [memory_to_vfo]
  | .memoryToVfoSub => [memory_to_vfo_sub]
  | .setSplit b => [set_split b]
  | .getSplit => [get_split_query]
  | .setClarifier rx tx off s => set_clarifier rx tx off s
  | .bandUp s => [band_up s]
  | .bandDown s => [band_down s]
  | .selectBand b s => [select_band b s]
  | .setScan m s => [set_scan m s]
  | .setCwKeyer b => [set_cw_keyer b]
  | .setCwSpeed wpm => [set_cw_speed wpm]
  | .getCwSpeed => [get_cw_speed_query]
  | .setCwPitch p => [set_cw_pitch p]
  | .setBreakin b => [set_breakin b]
  | .setIfShift off s => [set_if_shift off s]
  | .setWidth w s => [set_width w s]
  | .setNarrow b s => [set_narrow b s]
  | .setNoiseBlanker l s => [set_noise_blanker l s]
  | .setDnr l s => [set_dnr l s]
  | .setDnf b s => [set_dnf b s]
  | .getRadioInfo => [get_radio_info_query]
  | .getId => [get_id_query]
  | .getFirmwareVersion c => [get_firmware_version_query c]
  | .enableAutoInformation b => [enable_auto_information b]
  | .lockControls b => [lock_controls b]
  | .swapVfo => [swap_vfo]

/-- Running one catalog operation: `none` models an exception raised before
any transaction (only `set_memory_channel` validates), `some bs` the list of
command bodies actually sent. -/
def CatalogOp.run : CatalogOp → Option (List (List Char))
  | .setMemoryChannel ch s => (set_memory_channel ch s).map (fun b => [b])
  | op => some op.bodiesOf

-- ============================================================
-- lemmas about the read loop and framing
-- ============================================================

theorem readResponse_of_split (p q : List Char) (hp : ';' ∉ p) :
    readResponse (p ++ ';' :: q) = p := by
  induction p with
  | nil => simp [readResponse]
  | cons c cs ih =>
    have hc : c ≠ ';' := fun h => hp (h ▸ List.mem_cons_self c cs)
    have hcs : ';' ∉ cs := fun h => hp (List.mem_cons_of_mem c h)
    simp [readResponse, hc, ih hcs]

theorem readResponse_of_no_semi (l : List Char) (h : ';' ∉ l) :
    readResponse l = l := by
  induction l with
  | nil => rfl
  | cons c cs ih =>
    have hc : c ≠ ';' := fun hh => h (hh ▸ List.mem_cons_self c cs)
    have hcs : ';' ∉ cs := fun hh => h (List.mem_cons_of_mem c hh)
    simp [readResponse, hc, ih hcs]

theorem semi_not_mem_readResponse (l : List Char) : ';' ∉ readResponse l := by
  induction l with
  | nil => simp [readResponse]
  | cons c cs ih =>
    by_cases hc : c = ';'
    · simp [readResponse, hc]
    · intro h
      rw [readResponse, if_neg hc] at h
      rcases List.mem_cons.mp h with h | h
      · exact hc h.symm
      · exact ih h

theorem frame_single_semi {b : List Char} (h : ';' ∉ b) :
    (frame b).count ';' = 1 ∧ (frame b).getLast? = some ';' := by
  constructor
  · rw [frame, List.count_append, List.count_eq_zero_of_not_mem h]
    rfl
  · exact List.getLast?_concat b

-- ============================================================
-- the claims
-- ============================================================

/-- C1: for every command body, the engine appends exactly one `';'` and
writes that frame; the reply is all bytes read before the first `';'` of the
incoming stream (excluding it), or — when the stream runs out (timeout /
zero-byte read) before a `';'` — exactly the bytes accumulated so far; in
every case the returned string contains no `';'`. -/
theorem send_command_spec (command incoming : List Char) :
    (sendCommand command incoming).1 = command ++ [';']
    ∧ (∀ p q, ';' ∉ p → incoming = p ++ ';' :: q →
        (sendCommand command incoming).2 = p)
    ∧ (';' ∉ incoming → (sendCommand command incoming).2 = incoming)
    ∧ ';' ∉ (sendCommand command incoming).2 := by
  refine ⟨rfl, ?_, ?_, ?_⟩
  · intro p q hp hin
    show readResponse incoming = p
    rw [hin]
    exact readResponse_of_split p q hp
  · intro h
    exact readResponse_of_no_semi incoming h
  · exact semi_not_mem_readResponse incoming

/-- Witness for C1 at a concrete command and byte stream. -/
theorem send_command_spec_witness :
    (sendCommand "ID".toList "ID0840;junk".toList).2 = "ID0840".toList :=
  (send_command_spec "ID".toList "ID0840;junk".toList).2.1
    "ID0840".toList "junk".toList (by decide) (by decide)

/-- C2: for every frequency `f` with `30000 ≤ f ≤ 470000000`, decoding the
reply that echoes the body `set_frequency_main` sends (`"FA"` plus the 9-digit
zero-padded encoding) returns exactly `f`; likewise for the SUB pair with
`"FB"`. -/
theorem frequency_roundtrip (f : Int) (h1 : 30000 ≤ f) (h2 : f ≤ 470000000) :
    get_frequency_main_decode (set_frequency_main f) = some f
    ∧ get_frequency_sub_decode (set_frequency_sub f) = some f := by
  have hnn : ¬ f < 0 := by omega
  have hlt : f.toNat < 10 ^ 9 := by norm_num; omega
  have key : pyInt (padInt 9 f) = some f := by
    rw [padInt, if_neg hnn, pyInt_padNat (by norm_num) hlt,
      Int.toNat_of_nonneg (by omega)]
  constructor
  · show pyInt (("FA".toList ++ padInt 9 f).drop 2) = some f
    rw [List.drop_left' (by decide : ("FA".toList).length = 2), key]
  · show pyInt (("FB".toList ++ padInt 9 f).drop 2) = some f
    rw [List.drop_left' (by decide : ("FB".toList).length = 2), key]

/-- Witness for C2 at 14.250 MHz. -/
theorem frequency_roundtrip_witness :
    get_frequency_main_decode (set_frequency_main 14250000) = some 14250000 :=
  (frequency_roundtrip 14250000 (by norm_num) (by norm_num)).1

/-- C3: for every channel outside 1..99, `set_memory_channel` raises
`ValueError` (modelled `none`) and performs no transaction: no bytes are
written to the transport. -/
theorem memory_channel_rejected (channel : Int) (side : Fin 2)
    (h : channel < 1 ∨ 99 < channel) :
    set_memory_channel channel side = none := by
  rw [set_memory_channel, if_neg]
  omega

/-- Witness for C3 at channels 0, 100 and -5. -/
theorem memory_channel_rejected_witness :
    set_memory_channel 0 0 = none ∧ set_memory_channel 100 0 = none
    ∧ set_memory_channel (-5) 1 = none :=
  ⟨memory_channel_rejected 0 0 (Or.inl (by norm_num)),
   memory_channel_rejected 100 0 (Or.inr (by norm_num)),
   memory_channel_rejected (-5) 1 (Or.inl (by norm_num))⟩

/-- C5 (code bug): the setters with documented numeric ranges other than the
memory channel perform no validation at all — with an out-of-range argument
they format the command and hand it to the transaction engine instead of
failing first.  Evaluations at concrete out-of-range inputs: CW speed 100 WPM
(documented 4-60), frequency 500 MHz (documented max 470 MHz), IF shift
+2000 Hz (documented ±1200), clarifier offset +9996 Hz (documented ±9995):
each produces a sent command body, and `run` issues the transaction. -/
theorem unvalidated_setters_send :
    set_cw_speed 100 = "KS100".toList
    ∧ set_frequency_main 500000000 = "FA500000000".toList
    ∧ set_if_shift 2000 0 = "IS00+2000".toList
    ∧ clarFreqBody 9996 0 = "CF001+9996".toList
    ∧ (CatalogOp.setCwSpeed 100).run = some ["KS100".toList] := by
  refine ⟨by decide, by decide, by decide, by decide, by decide⟩

/-- C7: every call to `set_clarifier` issues exactly two transactions in a
fixed order: first the on/off-flags command (sub-selector `"00"`, CLAR
setting, carrying the rx and tx flags at offsets 5 and 6), second the offset
command (sub-selector `"01"`, CLAR frequency, carrying sign and magnitude);
the offset transaction is never first. -/
theorem set_clarifier_order (rx_on tx_on : Bool) (offset_hz : Int)
    (side : Fin 2) :
    set_clarifier rx_on tx_on offset_hz side =
      [clarFlagsBody rx_on tx_on side, clarFreqBody offset_hz side]
    ∧ (set_clarifier rx_on tx_on offset_hz side).length = 2
    ∧ (clarFlagsBody rx_on tx_on side).take 5 =
        "CF".toList ++ [sideChar side] ++ "00".toList
    ∧ (clarFlagsBody rx_on tx_on side).get? 5 = some (boolChar rx_on)
    ∧ (clarFlagsBody rx_on tx_on side).get? 6 = some (boolChar tx_on)
    ∧ (clarFreqBody offset_hz side).take 5 =
        "CF".toList ++ [sideChar side] ++ "01".toList
    ∧ (clarFreqBody offset_hz side).drop 5 =
        signChar offset_hz :: padNat 4 offset_hz.natAbs :=
  ⟨rfl, rfl, rfl, rfl, rfl, rfl, rfl⟩

/-- C8: for every side `s` and mode `m`, the body `set_mode` sends is the
literal `"MD"` + side digit + mode character, and the frame written is that
body followed by exactly one trailing `';'`. -/
theorem set_mode_encoding (m : OperatingMode) (s : Fin 2) :
    set_mode m s = "MD".toList ++ [sideChar s, m.value]
    ∧ frame (set_mode m s) = "MD".toList ++ [sideChar s, m.value] ++ [';']
    ∧ ';' ∉ set_mode m s
    ∧ (frame (set_mode m s)).count ';' = 1
    ∧ (frame (set_mode m s)).getLast? = some ';' := by
  have hm : m.value ≠ ';' := by cases m <;> decide
  have hs : sideChar s ≠ ';' := digitChar_ne_semi s.val
  have hmem : ';' ∉ set_mode m s := by
    intro h
    rw [set_mode] at h
    rcases List.mem_append.mp h with h | h
    · exact absurd h (by decide)
    · rcases List.mem_cons.mp h with h | h
      · exact hs h.symm
      · rcases List.mem_cons.mp h with h | h
        · exact hm h.symm
        · exact absurd h (List.not_mem_nil _)
  exact ⟨rfl, rfl, hmem, (frame_single_semi hmem).1, (frame_single_semi hmem).2⟩

/-- C10: for a zero offset, both signed-field encoders treat zero as
non-negative: the sign character is `'+'` and the emitted field is
`"+0000"`, in `set_clarifier`'s offset command and in `set_if_shift`. -/
theorem zero_offset_encodes_plus (s : Fin 2) :
    signChar 0 = '+'
    ∧ (clarFreqBody 0 s).drop 5 = "+0000".toList
    ∧ (set_if_shift 0 s).drop 4 = "+0000".toList :=
  ⟨rfl, rfl, rfl⟩

/-- C4 (counterexample): not every decoder fails on a short reply.  The mode
decoder is a bare trailing slice, so on the empty reply (a timeout) it
returns the empty string instead of failing — as do the AGC, identity and
firmware decoders — and the frequency decoder returns a partially-decoded
value `1` on the short reply `"FA1"`. -/
theorem short_reply_claim_counterexample :
    get_mode_decode "".toList = "".toList
    ∧ get_agc_decode "".toList = "".toList
    ∧ get_id_decode "".toList = "".toList
    ∧ get_firmware_version_decode "".toList = "".toList
    ∧ get_frequency_main_decode "FA1".toList = some 1 := by
  refine ⟨rfl, rfl, rfl, rfl, by decide⟩

/-- C4 (amended): decoders that index a fixed position or convert a numeric
field whose slice comes out empty do fail on short replies — PTT, split and
power below 3 characters, the frequency and CW-speed parses below 3, the
gain/squelch/S-meter/meter parses below 4, the composite info decode below
29 — but the trailing-slice decoders (mode, AGC, identity, firmware) are
total and return the possibly-empty remainder instead of a parse error. -/
theorem short_reply_behavior (r : List Char) :
    (r.length < 3 → get_ptt_status_decode r = none)
    ∧ (r.length < 3 → get_split_decode r = none)
    ∧ (r.length < 3 → get_rf_power_decode r = none)
    ∧ (r.length < 3 → get_frequency_main_decode r = none)
    ∧ (r.length < 3 → get_frequency_sub_decode r = none)
    ∧ (r.length < 3 → get_cw_speed_decode r = none)
    ∧ (r.length < 4 → get_af_gain_decode r = none)
    ∧ (r.length < 4 → get_squelch_decode r = none)
    ∧ (r.length < 4 → get_s_meter_decode r = none)
    ∧ (r.length < 4 → get_meter_reading_decode r = none)
    ∧ (r.length < 29 → get_radio_info_decode r = none)
    ∧ get_mode_decode r = r.drop 3
    ∧ get_agc_decode r = r.drop 3
    ∧ get_id_decode r = r.drop 2
    ∧ get_firmware_version_decode r = r.drop 3 := by
  have drop2 : r.length ≤ 2 → r.drop 2 = [] := fun h => List.drop_eq_nil_of_le h
  have drop3 : r.length ≤ 3 → r.drop 3 = [] := fun h => List.drop_eq_nil_of_le h
  refine ⟨?_, ?_, ?_, ?_, ?_, ?_, ?_, ?_, ?_, ?_, ?_, rfl, rfl, rfl, rfl⟩
  · intro h
    rw [get_ptt_status_decode, List.get?_eq_none.mpr (by omega)]
    rfl
  · intro h
    rw [get_split_decode, List.get?_eq_none.mpr (by omega)]
    rfl
  · intro h
    rw [get_rf_power_decode, List.get?_eq_none.mpr (by omega : r.length ≤ 2)]
    rfl
  · intro h
    rw [get_frequency_main_decode, drop2 (by omega)]
    rfl
  · intro h
    rw [get_frequency_sub_decode, drop2 (by omega)]
    rfl
  · intro h
    rw [get_cw_speed_decode, drop2 (by omega)]
    rfl
  · intro h
    rw [get_af_gain_decode, drop3 (by omega)]
    rfl
  · intro h
    rw [get_squelch_decode, drop3 (by omega)]
    rfl
  · intro h
    rw [get_s_meter_decode, drop3 (by omega)]
    rfl
  · intro h
    rw [get_meter_reading_decode, drop3 (by omega)]
    rfl
  · intro h
    have h28 : r.get? 28 = none := List.get?_eq_none.mpr (by omega)
    rw [get_radio_info_decode]
    cases pyInt ((r.drop 7).take 9) with
    | none => rfl
    | some freq =>
      cases r.get? 16 with
      | none => rfl
      | some dir =>
        cases pyInt ((r.drop 17).take 4) with
        | none => rfl
        | some off =>
          cases r.get? 21 with
          | none => rfl
          | some rx =>
            cases r.get? 22 with
            | none => rfl
            | some tx =>
              cases r.get? 23 with
              | none => rfl
              | some md =>
                cases r.get? 24 with
                | none => rfl
                | some vm =>
                  cases r.get? 25 with
                  | none => rfl
                  | some tone =>
                    rw [h28]
                    rfl

/-- Witness for the amended C4 at the empty reply. -/
theorem short_reply_behavior_witness :
    get_ptt_status_decode [] = none
    ∧ get_radio_info_decode [] = none
    ∧ get_mode_decode [] = [] := by
  obtain ⟨hptt, _, _, _, _, _, _, _, _, _, hinfo, hmode, _, _, _⟩ :=
    short_reply_behavior []
  exact ⟨hptt (by decide), hinfo (by decide), hmode⟩

/-- An `IF` reply body that echoes the clarifier-offset encoding of
`set_clarifier` in the clarifier fields of `get_radio_info`'s fixed layout:
memory channel `"00001"`, frequency `"014250000"`, then at offsets 16-20 the
sign character and 4-digit magnitude exactly as `set_clarifier` sends them,
then rx-clar `'1'`, tx-clar `'0'`, mode `'1'`, vfo `'2'`, tone `'0'`, and
padding up to the repeater-shift character at offset 28. -/
def clarifier_echo (offset_hz : Int) : List Char :=
  "IF00001014250000".toList ++
    (signChar offset_hz :: padNat 4 offset_hz.natAbs) ++ "10120000".toList

/-- C6: for every clarifier offset in range (in particular the five values
-9995, -1, 0, 1, 9995), the offset field `set_clarifier` encodes is exactly
one sign character followed by a 4-digit zero-padded magnitude equal to
`|offset_hz|`, and decoding the clarifier fields of a reply echoing this
encoding (`clar_direction` / `clar_offset` of `get_radio_info`) reconstructs
the original signed value. -/
theorem clarifier_offset_roundtrip (off : Int)
    (h1 : -9995 ≤ off) (h2 : off ≤ 9995) :
    clarFreqBody off 0 = "CF001".toList ++ (signChar off :: padNat 4 off.natAbs)
    ∧ (signChar off = '+' ∨ signChar off = '-')
    ∧ (padNat 4 off.natAbs).length = 4
    ∧ (∀ ch ∈ padNat 4 off.natAbs, ch.isDigit)
    ∧ parseNat (padNat 4 off.natAbs) = some off.natAbs
    ∧ ∃ info, get_radio_info_decode (clarifier_echo off) = some info
        ∧ info.clar_direction = signChar off
        ∧ info.clar_offset = (off.natAbs : Int)
        ∧ clarSigned info = off := by
  have habs : off.natAbs < 10 ^ 4 := by norm_num; omega
  have hp4 : (padNat 4 off.natAbs).length = 4 := padNat_length _ _
  obtain ⟨a, rest, hcons⟩ : ∃ a rest, padNat 4 off.natAbs = a :: rest := by
    rcases e : padNat 4 off.natAbs with _ | ⟨a, rest⟩
    · rw [e] at hp4
      simp at hp4
    · exact ⟨a, rest, rfl⟩
  have hrest3 : rest.length = 3 := by
    rw [hcons] at hp4
    simpa using hp4
  obtain ⟨b, c, d, hbcd⟩ := List.length_eq_three.mp hrest3
  subst hbcd
  have hl : padNat 4 off.natAbs = [a, b, c, d] := hcons
  refine ⟨rfl, ?_, hp4, fun ch hch => mem_padNat_isDigit hch,
    parseNat_padNat (by norm_num) habs, ?_⟩
  · unfold signChar
    split
    · exact Or.inl rfl
    · exact Or.inr rfl
  · have h7 : ((clarifier_echo off).drop 7).take 9 = "014250000".toList := by
      simp only [clarifier_echo]
      rw [hl]
      rfl
    have h2s : ((clarifier_echo off).drop 2).take 5 = "00001".toList := by
      simp only [clarifier_echo]
      rw [hl]
      rfl
    have h16 : (clarifier_echo off).get? 16 = some (signChar off) := by
      simp only [clarifier_echo]
      rw [hl]
      rfl
    have h17 : ((clarifier_echo off).drop 17).take 4 = padNat 4 off.natAbs := by
      simp only [clarifier_echo]
      rw [hl]
      rfl
    have h21 : (clarifier_echo off).get? 21 = some '1' := by
      simp only [clarifier_echo]
      rw [hl]
      rfl
    have h22 : (clarifier_echo off).get? 22 = some '0' := by
      simp only [clarifier_echo]
      rw [hl]
      rfl
    have h23 : (clarifier_echo off).get? 23 = some '1' := by
      simp only [clarifier_echo]
      rw [hl]
      rfl
    have h24 : (clarifier_echo off).get? 24 = some '2' := by
      simp only [clarifier_echo]
      rw [hl]
      rfl
    have h25 : (clarifier_echo off).get? 25 = some '0' := by
      simp only [clarifier_echo]
      rw [hl]
      rfl
    have h28 : (clarifier_echo off).get? 28 = some '0' := by
      simp only [clarifier_echo]
      rw [hl]
      rfl
    have hpy : pyInt "014250000".toList = some (14250000 : Int) := by decide
    have hpy2 : pyInt (padNat 4 off.natAbs) = some ((off.natAbs : Nat) : Int) :=
      pyInt_padNat (by norm_num) habs
    refine ⟨⟨"00001".toList, 14250000, signChar off, (off.natAbs : Int),
      true, false, '1', '2', '0', '0'⟩, ?_, rfl, rfl, ?_⟩
    · simp only [get_radio_info_decode]
      rw [h7, h16, h17, h21, h22, h23, h24, h25, h28, h2s, hpy, hpy2]
      rfl
    · show (if signChar off = '-' then -((off.natAbs : Int))
        else ((off.natAbs : Int))) = off
      by_cases h0 : (0 : Int) ≤ off
      · have hs : signChar off = '+' := by rw [signChar, if_pos h0]
        rw [hs, if_neg (by decide : ('+' : Char) ≠ '-')]
        omega
      · have hs : signChar off = '-' := by rw [signChar, if_neg h0]
        rw [hs, if_pos rfl]
        omega

/-- Witness for C6 at offset -9995. -/
theorem clarifier_offset_roundtrip_witness :
    signChar (-9995) = '-'
    ∧ parseNat (padNat 4 (Int.natAbs (-9995))) = some 9995
    ∧ ∃ info, get_radio_info_decode (clarifier_echo (-9995)) = some info
        ∧ clarSigned info = -9995 := by
  have h := clarifier_offset_roundtrip (-9995) (by norm_num) (by norm_num)
  refine ⟨by decide, h.2.2.2.2.1, ?_⟩
  obtain ⟨info, hdec, _, _, hsig⟩ := h.2.2.2.2.2
  exact ⟨info, hdec, hsig⟩

-- ============================================================
-- helpers for the frame invariant over the whole catalog
-- ============================================================

theorem noSemi_append {a b : List Char} (ha : ';' ∉ a) (hb : ';' ∉ b) :
    ';' ∉ a ++ b :=
  fun h => (List.mem_append.mp h).elim ha hb

theorem noSemi_cons {c : Char} {cs : List Char} (h1 : c ≠ ';')
    (h2 : ';' ∉ cs) : ';' ∉ c :: cs := by
  intro h
  rcases List.mem_cons.mp h with h | h
  · exact h1 h.symm
  · exact h2 h

theorem noSemi_single {c : Char} (h : c ≠ ';') : ';' ∉ [c] :=
  noSemi_cons h (List.not_mem_nil ';')

theorem sideChar_ne_semi (s : Fin 2) : sideChar s ≠ ';' :=
  digitChar_ne_semi s.val

theorem boolChar_ne_semi (b : Bool) : boolChar b ≠ ';' := by
  cases b <;> decide

theorem signChar_ne_semi (i : Int) : signChar i ≠ ';' := by
  unfold signChar
  split <;> decide

theorem modeValue_ne_semi (m : OperatingMode) : m.value ≠ ';' := by
  cases m <;> decide

theorem agcValue_ne_semi (m : AGCMode) : m.value ≠ ';' := by
  cases m <;> decide

theorem bodyOk {b : List Char} (h : ';' ∉ b) :
    ';' ∉ b ∧ (frame b).count ';' = 1 ∧ (frame b).getLast? = some ';' :=
  ⟨h, (frame_single_semi h).1, (frame_single_semi h).2⟩

/-- C9: for every catalog operation whose arguments satisfy its documented
preconditions, the operation raises nothing (its run produces its command
bodies) and every frame written to the transport satisfies the Command Frame
invariant: the body contains no `';'`, and the frame carries exactly one
`';'`, in final position. -/
theorem catalog_frames_ok (op : CatalogOp) (h : op.pre) :
    op.run = some op.bodiesOf
    ∧ ∀ b ∈ op.bodiesOf,
        ';' ∉ b ∧ (frame b).count ';' = 1 ∧ (frame b).getLast? = some ';' := by
  constructor
  · cases op with
    | setMemoryChannel ch s =>
      show (set_memory_channel ch s).map (fun b => [b]) = _
      rw [set_memory_channel, if_pos h]
      rfl
    | _ => rfl
  · cases op with
    | setFrequencyMain f =>
      exact List.forall_mem_singleton.mpr
        (bodyOk (noSemi_append (by decide) (semi_not_mem_padInt _ _)))
    | getFrequencyMain => exact List.forall_mem_singleton.mpr (bodyOk (by decide))
    | setFrequencySub f =>
      exact List.forall_mem_singleton.mpr
        (bodyOk (noSemi_append (by decide) (semi_not_mem_padInt _ _)))
    | getFrequencySub => exact List.forall_mem_singleton.mpr (bodyOk (by decide))
    | setMode m s =>
      exact List.forall_mem_singleton.mpr
        (bodyOk (noSemi_append (by decide) (noSemi_cons (sideChar_ne_semi s)
          (noSemi_single (modeValue_ne_semi m)))))
    | getMode s =>
      exact List.forall_mem_singleton.mpr
        (bodyOk (noSemi_append (by decide) (noSemi_single (sideChar_ne_semi s))))
    | setPtt state =>
      exact List.forall_mem_singleton.mpr (bodyOk (by cases state <;> decide))
    | getPttStatus => exact List.forall_mem_singleton.mpr (bodyOk (by decide))
    | setRfPower p u =>
      exact List.forall_mem_singleton.mpr
        (bodyOk (noSemi_append (noSemi_append (by decide)
          (noSemi_single (digitChar_ne_semi u))) (semi_not_mem_padNat _ _)))
    | getRfPower => exact List.forall_mem_singleton.mpr (bodyOk (by decide))
    | setAgc m s =>
      exact List.forall_mem_singleton.mpr
        (bodyOk (noSemi_append (by decide) (noSemi_cons (sideChar_ne_semi s)
          (noSemi_single (agcValue_ne_semi m)))))
    | getAgc s =>
      exact List.forall_mem_singleton.mpr
        (bodyOk (noSemi_append (by decide) (noSemi_single (sideChar_ne_semi s))))
    | setAfGain l s =>
      exact List.forall_mem_singleton.mpr
        (bodyOk (noSemi_append (noSemi_append (by decide)
          (noSemi_single (sideChar_ne_semi s))) (semi_not_mem_padNat _ _)))
    | getAfGain s =>
      exact List.forall_mem_singleton.mpr
        (bodyOk (noSemi_append (by decide) (noSemi_single (sideChar_ne_semi s))))
    | setSquelch l s =>
      exact List.forall_mem_singleton.mpr
        (bodyOk (noSemi_append (noSemi_append (by decide)
          (noSemi_single (sideChar_ne_semi s))) (semi_not_mem_padNat _ _)))
    | getSquelch s =>
      exact List.forall_mem_singleton.mpr
        (bodyOk (noSemi_append (by decide) (noSemi_single (sideChar_ne_semi s))))
    | getSMeter s =>
      exact List.forall_mem_singleton.mpr
        (bodyOk (noSemi_append (by decide) (noSemi_single (sideChar_ne_semi s))))
    | getMeterReading mt =>
      exact List.forall_mem_singleton.mpr
        (bodyOk (noSemi_append (by decide) (noSemi_single (digitChar_ne_semi mt))))
    | toggleVfoMemory s =>
      exact List.forall_mem_singleton.mpr
        (bodyOk (noSemi_append (by decide) (noSemi_single (sideChar_ne_semi s))))
    | setMemoryChannel ch s =>
      exact List.forall_mem_singleton.mpr
        (bodyOk (noSemi_append (noSemi_append (by decide)
          (noSemi_single (sideChar_ne_semi s))) (semi_not_mem_padInt _ _)))
    | memoryToVfo => exact List.forall_mem_singleton.mpr (bodyOk (by decide))
    | memoryToVfoSub => exact List.forall_mem_singleton.mpr (bodyOk (by decide))
    | setSplit state =>
      exact List.forall_mem_singleton.mpr (bodyOk (by cases state <;> decide))
    | getSplit => exact List.forall_mem_singleton.mpr (bodyOk (by decide))
    | setClarifier rx tx off s =>
      refine List.forall_mem_cons.mpr ⟨?_, List.forall_mem_singleton.mpr ?_⟩
      · exact bodyOk (noSemi_append (noSemi_append (noSemi_append
          (noSemi_append (by decide) (noSemi_single (sideChar_ne_semi s)))
          (by decide)) (noSemi_cons (boolChar_ne_semi rx)
            (noSemi_single (boolChar_ne_semi tx)))) (by decide))
      · exact bodyOk (noSemi_append (noSemi_append (noSemi_append
          (noSemi_append (by decide) (noSemi_single (sideChar_ne_semi s)))
          (by decide)) (noSemi_single (signChar_ne_semi off)))
          (semi_not_mem_padNat _ _))
    | bandUp s =>
      exact List.forall_mem_singleton.mpr
        (bodyOk (noSemi_append (by decide) (noSemi_single (sideChar_ne_semi s))))
    | bandDown s =>
      exact List.forall_mem_singleton.mpr
        (bodyOk (noSemi_append (by decide) (noSemi_single (sideChar_ne_semi s))))
    | selectBand b s =>
      exact List.forall_mem_singleton.mpr
        (bodyOk (noSemi_append (noSemi_append (by decide)
          (noSemi_single (sideChar_ne_semi s))) (semi_not_mem_padNat _ _)))
    | setScan m s =>
      exact List.forall_mem_singleton.mpr
        (bodyOk (noSemi_append (by decide) (noSemi_cons (sideChar_ne_semi s)
          (noSemi_single (digitChar_ne_semi m.val)))))
    | setCwKeyer state =>
      exact List.forall_mem_singleton.mpr (bodyOk (by cases state <;> decide))
    | setCwSpeed wpm =>
      exact List.forall_mem_singleton.mpr
        (bodyOk (noSemi_append (by decide) (semi_not_mem_padNat _ _)))
    | getCwSpeed => exact List.forall_mem_singleton.mpr (bodyOk (by decide))
    | setCwPitch p =>
      exact List.forall_mem_singleton.mpr
        (bodyOk (noSemi_append (by decide) (semi_not_mem_padInt _ _)))
    | setBreakin state =>
      exact List.forall_mem_singleton.mpr (bodyOk (by cases state <;> decide))
    | setIfShift off s =>
      exact List.forall_mem_singleton.mpr
        (bodyOk (noSemi_append (noSemi_append (noSemi_append (noSemi_append
          (by decide) (noSemi_single (sideChar_ne_semi s))) (by decide))
          (noSemi_single (signChar_ne_semi off))) (semi_not_mem_padNat _ _)))
    | setWidth w s =>
      exact List.forall_mem_singleton.mpr
        (bodyOk (noSemi_append (noSemi_append (noSemi_append (by decide)
          (noSemi_single (sideChar_ne_semi s))) (by decide))
          (semi_not_mem_padNat _ _)))
    | setNarrow state s =>
      exact List.forall_mem_singleton.mpr
        (bodyOk (noSemi_append (noSemi_append (by decide)
          (noSemi_single (sideChar_ne_semi s)))
          (noSemi_single (boolChar_ne_semi state))))
    | setNoiseBlanker l s =>
      exact List.forall_mem_singleton.mpr
        (bodyOk (noSemi_append (noSemi_append (by decide)
          (noSemi_single (sideChar_ne_semi s))) (semi_not_mem_padNat _ _)))
    | setDnr l s =>
      exact List.forall_mem_singleton.mpr
        (bodyOk (noSemi_append (noSemi_append (by decide)
          (noSemi_single (sideChar_ne_semi s))) (semi_not_mem_padNat _ _)))
    | setDnf state s =>
      exact List.forall_mem_singleton.mpr
        (bodyOk (noSemi_append (noSemi_append (by decide)
          (noSemi_single (sideChar_ne_semi s)))
          (noSemi_single (boolChar_ne_semi state))))
    | getRadioInfo => exact List.forall_mem_singleton.mpr (bodyOk (by decide))
    | getId => exact List.forall_mem_singleton.mpr (bodyOk (by decide))
    | getFirmwareVersion c =>
      exact List.forall_mem_singleton.mpr
        (bodyOk (noSemi_append (by decide) (noSemi_single (digitChar_ne_semi c.val))))
    | enableAutoInformation state =>
      exact List.forall_mem_singleton.mpr (bodyOk (by cases state <;> decide))
    | lockControls state =>
      exact List.forall_mem_singleton.mpr (bodyOk (by cases state <;> decide))
    | swapVfo => exact List.forall_mem_singleton.mpr (bodyOk (by decide))

/-- Witness for C9 at a concrete in-range operation. -/
theorem catalog_frames_ok_witness :
    (CatalogOp.setCwSpeed 20).run = some (CatalogOp.setCwSpeed 20).bodiesOf
    ∧ ';' ∉ "KS020".toList ∧ (frame "KS020".toList).count ';' = 1 := by
  have h := catalog_frames_ok (CatalogOp.setCwSpeed 20) (by decide)
  have hb := h.2 "KS020".toList (by decide)
  exact ⟨h.1, hb.1, hb.2.1⟩
